import Mathlib

/-!
Verification of the real-time feed client of the traffic dashboard.

Source files embedded:
- frontend/src/hooks/useSocket.ts : the reconnecting WebSocket hook
  (connection state machine, message decoding, reconnect timer).
- frontend/src/app/page.tsx : the per-lane view derivation and the global
  emergency banner.

Machine-level conventions: lane ids are JS numbers restricted to integers in
the configuration (`lanes = [1, 2, 3, 4]`), modelled as `Int`; wire numbers
(JSON numbers, e.g. `confidence`, `lane_id`) are modelled as `ℚ`; JS objects
are association lists with first-match lookup, matching JS key uniqueness.
-/

/-- A parsed JSON value, the result of the platform `JSON.parse` on an
inbound wire frame. -/
inductive Json where
  | null : Json
  | bool : Bool → Json
  | num : ℚ → Json
  | str : String → Json
  | arr : List Json → Json
  | obj : List (String × Json) → Json

/-- Outcome of running the platform `JSON.parse` on the raw text of a frame:
`none` when the text is not well-formed JSON (in which case `JSON.parse`
throws), `some j` when it parses to the JSON value `j`. -/
abbrev Raw := Option Json

/-- The decoding performed by `socket.onmessage` (useSocket.ts, lines 39-46):
the handler runs `JSON.parse(event.data)` inside a try/catch and performs no
field validation whatsoever; the parsed value is handed to `setData` as-is.
So the decode step succeeds exactly when the platform parse succeeds. -/
def decode (raw : Raw) : Option Json := raw

/-- Whether a JSON value is an object carrying the given top-level key. -/
def Json.hasKey : Json → String → Bool
  | .obj fs, k => fs.any (fun p => p.1 == k)
  | _, _ => false

/-- The fixed reconnect delay passed to `setTimeout(connect, 3000)` in
`socket.onclose` (useSocket.ts, line 51), in milliseconds. -/
def reconnectDelayMs : Nat := 3000

/-- The state of the `useSocket` hook. `data` and `isConnected` are the two
React state cells; `socketRef` holds the id of the WebSocket currently stored
in `socketRef.current` (sockets are numbered in creation order by `nextId`);
`pending` lists the delays of the reconnect timers currently scheduled by
`setTimeout(connect, 3000)` and not yet fired or cleared. -/
structure ClientState where
  data : Option Json
  isConnected : Bool
  socketRef : Option Nat
  pending : List Nat
  nextId : Nat

/-- `connect` (useSocket.ts, lines 29-31): creates a new WebSocket and stores
it in `socketRef.current`, superseding any previous one. -/
def connect (s : ClientState) : ClientState :=
  { s with socketRef := some s.nextId, nextId := s.nextId + 1 }

/-- The `socket.onopen` handler (useSocket.ts, lines 33-36): logs and sets
`isConnected` to true. The handler body never consults which socket `c`
fired it. -/
def onOpen (c : Nat) (s : ClientState) : ClientState :=
  { s with isConnected := true }

/-- The `socket.onmessage` handler (useSocket.ts, lines 39-46): on a frame
whose text parses, `setData(parsedData)` replaces the cached snapshot; on a
parse failure the error is logged (`console.error`) and nothing else happens.
The handler body never consults which socket `c` fired it. -/
def onMessage (c : Nat) (raw : Raw) (s : ClientState) : ClientState :=
  match decode raw with
  | some j => { s with data := some j }
  | none => s

/-- The `socket.onclose` handler (useSocket.ts, lines 48-52): logs, sets
`isConnected` to false and schedules `setTimeout(connect, 3000)`. The handler
body never consults which socket `c` fired it: there is no staleness guard. -/
def onClose (c : Nat) (s : ClientState) : ClientState :=
  { s with isConnected := false, pending := s.pending ++ [reconnectDelayMs] }

/-- The `socket.onerror` handler (useSocket.ts, lines 54-56): logs only. -/
def onError (c : Nat) (s : ClientState) : ClientState := s

/-- A scheduled reconnect timer fires: the timer is consumed and `connect`
runs, creating a fresh socket. -/
def timerFire (s : ClientState) : ClientState :=
  connect { s with pending := s.pending.drop 1 }

/-- The effect cleanup of the hook (useSocket.ts, lines 61-65): it calls
`socketRef.current.close()` when a socket is stored, and nothing else. The
close is an external action on the socket; no React state changes and — in
particular — no `clearTimeout` is issued, so `pending` is untouched. -/
def cleanup (s : ClientState) : ClientState := s

/-- The signal colors of the wire contract and of `SignalState` in
useSocket.ts (line 3). -/
inductive SignalState where
  | RED : SignalState
  | YELLOW : SignalState
  | GREEN : SignalState
deriving DecidableEq, Repr

/-- The `emergency` (and `accident`) shape of the `SocketData` interface
(useSocket.ts, lines 13-20): `is_active: boolean; lane_id: number | null`. -/
structure Emergency where
  is_active : Bool
  lane_id : Option ℚ
deriving DecidableEq, Repr

/-- One detection record `\x7b class: string; confidence: number \x7d` of the
`SocketData` interface (useSocket.ts, line 21). The `class` field is named
`cls` here because `class` is reserved in Lean. -/
structure Detection where
  cls : String
  confidence : ℚ
deriving DecidableEq, Repr

/-- The `SocketData` interface (useSocket.ts, lines 11-22): the typed shape
in which page.tsx consumes the cached value. `accident` is optional. -/
structure SocketData where
  signals : List (String × SignalState)
  emergency : Emergency
  accident : Option Emergency
  detections : List (String × List Detection)
deriving DecidableEq, Repr

/-- The lane key used to index the snapshot maps: the template literal
`lane${laneId}` of page.tsx (line 48). -/
def laneKey (id : Int) : String := "lane" ++ toString id

/-- The per-lane view record passed to `VideoCard` (page.tsx, lines 54-61). -/
structure LaneView where
  laneId : Int
  signalState : SignalState
  isEmergency : Bool
  detections : List Detection
deriving DecidableEq, Repr

/-- The per-lane derivation of `Home` (page.tsx, lines 47-63): for each
configured lane id, in configuration order,
`signalState = data?.signals[laneKey] || 'RED'`,
`isEmergency = !!(data?.emergency.is_active && data.emergency.lane_id === laneId)`,
`detections = data?.detections?.[laneKey] || []`. -/
def derive (data : Option SocketData) (laneIds : List Int) : List LaneView :=
  laneIds.map fun laneId =>
    { laneId := laneId
      signalState := ((data.bind fun d => d.signals.lookup (laneKey laneId)).getD .RED)
      isEmergency := match data with
        | some d => d.emergency.is_active && decide (d.emergency.lane_id = some (laneId : ℚ))
        | none => false
      detections := (data.bind fun d => d.detections.lookup (laneKey laneId)).getD [] }

/-- The global alert overlay of `Home` (page.tsx, lines 67-81): rendered
exactly when `data?.emergency.is_active`, and it displays
`data.emergency.lane_id`. `none` = overlay hidden; `some l` = overlay shown
naming lane `l`. -/
def banner (data : Option SocketData) : Option (Option ℚ) :=
  match data with
  | some d => if d.emergency.is_active then some d.emergency.lane_id else none
  | none => none

/-- The configured lane ids of page.tsx (line 14): `const lanes = [1, 2, 3, 4]`. -/
def lanes : List Int := [1, 2, 3, 4]

/-!
The TypeScript code casts the parsed JSON to `SocketData` without any runtime
check; the typed shape lives only in the `SocketData` interface declaration
(useSocket.ts, lines 11-22). The readers below make that declared shape
explicit so that typed claims can be connected to concrete wire frames: they
read a parsed JSON value field by field exactly along the interface.
-/

/-- Reads a wire signal color string (useSocket.ts, line 12). -/
def readSignal : Json → Option SignalState
  | .str "RED" => some .RED
  | .str "YELLOW" => some .YELLOW
  | .str "GREEN" => some .GREEN
  | _ => none

/-- Reads a JSON object as a string-keyed map whose values are read by
`read`, modelling a TS `Record<string, T>`. -/
def readStringMap (read : Json → Option α) : Json → Option (List (String × α))
  | .obj fs => fs.mapM (fun p => (read p.2).map (fun a => (p.1, a)))
  | _ => none

/-- Reads a `number | null` lane id (useSocket.ts, lines 15 and 19). -/
def readLaneId : Json → Option (Option ℚ)
  | .null => some none
  | .num q => some (some q)
  | _ => none

/-- Reads the `emergency` / `accident` shape (useSocket.ts, lines 13-20). -/
def readEmergency : Json → Option Emergency
  | .obj fs => do
      let ja ← fs.lookup "is_active"
      let jl ← fs.lookup "lane_id"
      let a ← match ja with | .bool b => some b | _ => none
      let l ← readLaneId jl
      pure { is_active := a, lane_id := l }
  | _ => none

/-- Reads one detection record (useSocket.ts, line 21). The `confidence`
number is passed through unchanged — no range clamping. -/
def readDetection : Json → Option Detection
  | .obj fs => do
      let jc ← fs.lookup "class"
      let jq ← fs.lookup "confidence"
      let c ← match jc with | .str s => some s | _ => none
      let q ← match jq with | .num q => some q | _ => none
      pure { cls := c, confidence := q }
  | _ => none

/-- Reads a lane's detection array (useSocket.ts, line 21). -/
def readDetectionList : Json → Option (List Detection)
  | .arr xs => xs.mapM readDetection
  | _ => none

/-- Reads a parsed frame along the `SocketData` interface (useSocket.ts,
lines 11-22): the three required fields `signals`, `emergency`, `detections`,
plus the optional `accident`. Only these four keys are ever consulted; any
other key of the frame is never accessed by the frontend. -/
def readSocketData (j : Json) : Option SocketData :=
  match j with
  | .obj fs => do
      let js ← fs.lookup "signals"
      let je ← fs.lookup "emergency"
      let jd ← fs.lookup "detections"
      let signals ← readStringMap readSignal js
      let emergency ← readEmergency je
      let accident ← match fs.lookup "accident" with
        | none => some none
        | some ja => (readEmergency ja).map some
      let detections ← readStringMap readDetectionList jd
      pure { signals := signals, emergency := emergency,
             accident := accident, detections := detections }
  | _ => none

/-- Encodes a `number | null` lane id back to JSON. -/
def laneIdJson : Option ℚ → Json
  | none => .null
  | some q => .num q

/-- A structurally minimal well-formed frame whose `emergency` carries the
given flag and lane id. -/
def emergencyFrame (b : Bool) (l : Option ℚ) : Json :=
  .obj [("signals", .obj []),
        ("emergency", .obj [("is_active", .bool b), ("lane_id", laneIdJson l)]),
        ("detections", .obj [])]

/-- A structurally well-formed frame that carries `emergency` and
`detections` but no `signals` key. -/
def frameNoSignals : Json :=
  .obj [("emergency", .obj [("is_active", .bool false), ("lane_id", .null)]),
        ("detections", .obj [])]

/-- The rational 0.92 (= 23/25), the confidence of the scenario frame, built
from the raw constructor so that kernel evaluation stays unblocked. -/
def conf92 : ℚ := ⟨23, 25, by decide, by decide⟩

/-- The wire frame of the reference scenario (spec section 8). -/
def frame8 : Json :=
  .obj [("signals", .obj [("lane1", .str "GREEN"), ("lane2", .str "RED"),
                          ("lane3", .str "RED"), ("lane4", .str "RED")]),
        ("emergency", .obj [("is_active", .bool true), ("lane_id", .num 1)]),
        ("detections", .obj [("lane1", .arr [.obj [("class", .str "ambulance"),
                                                   ("confidence", .num conf92)]])])]

/-- The typed reading of `frame8`. -/
def snap8 : SocketData :=
  { signals := [("lane1", .GREEN), ("lane2", .RED), ("lane3", .RED), ("lane4", .RED)]
    emergency := { is_active := true, lane_id := some 1 }
    accident := none
    detections := [("lane1", [{ cls := "ambulance", confidence := conf92 }])] }

/-- The initial hook state: no data, not connected, no socket yet, nothing
scheduled. -/
def initialState : ClientState :=
  { data := none, isConnected := false, socketRef := none, pending := [], nextId := 0 }

/-- A state in which an earlier connection (socket 0) has been superseded: a
reconnect timer is still pending and a newer socket 1 is current and open. -/
def supersededState : ClientState :=
  { data := none, isConnected := true, socketRef := some 1,
    pending := [reconnectDelayMs], nextId := 2 }

/-- A well-formed frame whose `emergency` is active yet names no lane. -/
def frame9 : Json := emergencyFrame true none

/-- The view derived for lane 1 from `snap8`. -/
def laneOneView : LaneView :=
  { laneId := 1, signalState := .GREEN, isEmergency := true,
    detections := [{ cls := "ambulance", confidence := conf92 }] }

/-- The three connection statuses named by the spec (section 3). -/
inductive ConnectionStatus where
  | CONNECTING : ConnectionStatus
  | OPEN : ConnectionStatus
  | RECONNECTING : ConnectionStatus
deriving DecidableEq, Repr

/-- Follows the spec's words (sections 3 and 4.3): the spec's three-state
connection status read off the hook's state. The hook itself keeps only the
boolean `isConnected`; the spec's `OPEN` corresponds to `isConnected`, and a
disconnected state counts as `RECONNECTING` exactly when a reconnect timer
is pending, as `CONNECTING` otherwise. -/
def statusOfSpec (s : ClientState) : ConnectionStatus :=
  if s.isConnected then .OPEN
  else if s.pending.isEmpty then .CONNECTING else .RECONNECTING

/-!
Theorems. Two general list-level helper lemmas come first; then one theorem
per claim, each with its counterexample or witness where applicable.
-/

/-- A predicate satisfied by at most one value counts at most one element of
a duplicate-free list. -/
lemma countP_le_one_of_nodup {α : Type} {p : α → Bool} {L : List α} (hnd : L.Nodup)
    (hp : ∀ a b, p a = true → p b = true → a = b) : L.countP p ≤ 1 := by
  induction L with
  | nil => simp
  | cons x xs ih =>
    obtain ⟨hx, hnd2⟩ := List.nodup_cons.mp hnd
    by_cases hpx : p x = true
    · rw [List.countP_cons_of_pos _ _ hpx]
      have hz : xs.countP p = 0 :=
        List.countP_eq_zero.mpr (fun a ha hpa => hx ((hp a x hpa hpx) ▸ ha))
      omega
    · rw [List.countP_cons_of_neg _ _ hpx]
      exact ih hnd2

/-- Appending a binding for a different key does not change a lookup. -/
lemma lookup_append_single {fs : List (String × Json)} {k k2 : String} {v : Json}
    (h : k2 ≠ k) : (fs ++ [(k, v)]).lookup k2 = fs.lookup k2 := by
  induction fs with
  | nil => simp [List.lookup_cons, beq_false_of_ne h, List.lookup]
  | cons p ps ih =>
    obtain ⟨a, b⟩ := p
    rw [List.cons_append, List.lookup_cons, List.lookup_cons]
    cases hk : k2 == a
    · simpa using ih
    · simp

/-- C1 counterexample: a structurally well-formed frame that carries
`emergency` and `detections` but no `signals` key is decoded successfully —
the handler runs only `JSON.parse` and checks no required field, so the
claimed `DecodeError` on a missing `signals` key does not occur. -/
theorem decode_accepts_frame_missing_signals :
    frameNoSignals.hasKey "signals" = false ∧
    frameNoSignals.hasKey "emergency" = true ∧
    frameNoSignals.hasKey "detections" = true ∧
    decode (some frameNoSignals) = some frameNoSignals :=
  ⟨by decide, by decide, by decide, rfl⟩

/-- C1 (amended): decode fails exactly when the raw text is not well-formed
JSON; required top-level fields are not checked, and a frame extended with an
extra unknown top-level key still decodes, the extra key never being consumed
by the `SocketData` reading. -/
theorem decode_fails_iff_malformed (raw : Raw)
    (fs : List (String × Json)) (k : String) (v : Json)
    (h1 : k ≠ "signals") (h2 : k ≠ "emergency") (h3 : k ≠ "accident")
    (h4 : k ≠ "detections") :
    (decode raw = none ↔ raw = none) ∧
    decode (some (.obj (fs ++ [(k, v)]))) = some (.obj (fs ++ [(k, v)])) ∧
    readSocketData (.obj (fs ++ [(k, v)])) = readSocketData (.obj fs) := by
  refine ⟨Iff.rfl, rfl, ?_⟩
  simp only [readSocketData]
  rw [lookup_append_single (Ne.symm h1), lookup_append_single (Ne.symm h2),
      lookup_append_single (Ne.symm h3), lookup_append_single (Ne.symm h4)]

/-- C1 witness: the amended theorem applied to the ill-formed raw text and to
a concrete frame extended with the unknown key `extra`. -/
theorem decode_fails_iff_malformed_witness :
    ((decode none = none ↔ (none : Raw) = none) ∧
     decode (some (.obj ([] ++ [("extra", Json.null)]))) =
       some (.obj ([] ++ [("extra", Json.null)])) ∧
     readSocketData (.obj ([] ++ [("extra", Json.null)])) = readSocketData (.obj [])) :=
  decode_fails_iff_malformed none [] "extra" Json.null
    (by decide) (by decide) (by decide) (by decide)

/-- C2 counterexample: in `supersededState` socket 1 is current and open and
one reconnect timer is pending. The cleanup (shutdown) leaves the pending
reconnect timer scheduled — nothing cancels it — and an `onClose` delivered
from the stale, superseded socket 0 does change the state: the connected flag
drops and a further reconnect is scheduled. -/
theorem stale_onClose_changes_state :
    supersededState.socketRef = some 1 ∧
    supersededState.isConnected = true ∧
    (cleanup supersededState).pending = [reconnectDelayMs] ∧
    (onClose 0 supersededState).isConnected = false ∧
    (onClose 0 supersededState).pending = [reconnectDelayMs, reconnectDelayMs] := by
  decide

/-- C2 (amended): shutdown closes the current socket but cancels no pending
reconnect timer and installs no guard, and an `onClose` from any connection —
stale and superseded or current — always drops the connected flag, schedules
another reconnect after the fixed delay, and leaves the snapshot unchanged. -/
theorem cleanup_keeps_timer_and_onClose_unguarded (s : ClientState) (c : Nat) :
    cleanup s = s ∧
    (onClose c s).isConnected = false ∧
    (onClose c s).pending = s.pending ++ [reconnectDelayMs] ∧
    (onClose c s).data = s.data :=
  ⟨rfl, rfl, rfl, rfl⟩

/-- C3: a frame that fails to decode leaves the client state completely
unchanged — the cached snapshot, the connected flag, the current socket and
the scheduled timers are all retained, and no close is issued (the handler
only logs in its catch branch). -/
theorem malformed_frame_preserves_state (s : ClientState) (c : Nat) (raw : Raw)
    (h : decode raw = none) : onMessage c raw s = s := by
  unfold onMessage
  rw [h]

/-- C3 witness: the theorem applied to the ill-formed raw text in the initial
state. -/
theorem malformed_frame_preserves_state_witness :
    decode none = none ∧ onMessage 0 none initialState = initialState :=
  ⟨rfl, malformed_frame_preserves_state initialState 0 none rfl⟩

/-- C4: from every client state, `onClose` yields the `RECONNECTING` status
(connected flag false with a reconnect pending), schedules exactly one new
connection attempt after the fixed 3000 ms delay, and leaves the cached
snapshot unchanged. -/
theorem onClose_reconnecting_delay_snapshot (s : ClientState) (c : Nat) :
    statusOfSpec (onClose c s) = .RECONNECTING ∧
    (onClose c s).pending = s.pending ++ [reconnectDelayMs] ∧
    reconnectDelayMs = 3000 ∧
    (onClose c s).data = s.data := by
  refine ⟨?_, rfl, rfl, rfl⟩
  simp [statusOfSpec, onClose]

/-- C5: for a duplicate-free lane configuration, derivation returns one
record per configured lane, in configuration order (the snapshot's map order
plays no role), with `isEmergency` set on at most one record and only when
the snapshot's emergency is active. -/
theorem derive_length_order_emergency (S : SocketData) (L : List Int) (hnd : L.Nodup) :
    (derive (some S) L).length = L.length ∧
    (derive (some S) L).map LaneView.laneId = L ∧
    (derive (some S) L).countP (fun v => v.isEmergency) ≤ 1 ∧
    ∀ v ∈ derive (some S) L, v.isEmergency = true → S.emergency.is_active = true := by
  refine ⟨by simp [derive], ?_, ?_, ?_⟩
  · simp [derive, List.map_map]
    exact List.map_id L
  · rw [derive, List.countP_map]
    apply countP_le_one_of_nodup hnd
    intro a b ha hb
    simp only [Function.comp, Bool.and_eq_true, decide_eq_true_eq] at ha hb
    have : some ((a : Int) : ℚ) = some ((b : Int) : ℚ) := ha.2 ▸ hb.2 ▸ rfl
    exact_mod_cast Option.some_injective _ this
  · intro v hv hemv
    rw [derive] at hv
    obtain ⟨id, hid, rfl⟩ := List.mem_map.mp hv
    simp only [Bool.and_eq_true] at hemv
    exact hemv.1

/-- C5 witness: the theorem applied to the scenario snapshot and the
configured lanes. -/
theorem derive_length_order_emergency_witness :
    lanes.Nodup ∧
    ((derive (some snap8) lanes).length = lanes.length ∧
     (derive (some snap8) lanes).map LaneView.laneId = lanes ∧
     (derive (some snap8) lanes).countP (fun v => v.isEmergency) ≤ 1 ∧
     ∀ v ∈ derive (some snap8) lanes, v.isEmergency = true →
       snap8.emergency.is_active = true) :=
  ⟨by decide, derive_length_order_emergency snap8 lanes (by decide)⟩

/-- C6: every record derived from a non-null snapshot reads its lane's
signal from the snapshot when the lane key is present and defaults to RED
otherwise; reads its detections when present and defaults to the empty list
otherwise; and is flagged as emergency exactly when the snapshot's emergency
is active and names that lane. -/
theorem derive_fields_per_lane (S : SocketData) (L : List Int) (v : LaneView)
    (hv : v ∈ derive (some S) L) :
    (∀ st, S.signals.lookup (laneKey v.laneId) = some st → v.signalState = st) ∧
    (S.signals.lookup (laneKey v.laneId) = none → v.signalState = .RED) ∧
    (∀ ds, S.detections.lookup (laneKey v.laneId) = some ds → v.detections = ds) ∧
    (S.detections.lookup (laneKey v.laneId) = none → v.detections = []) ∧
    (v.isEmergency = true ↔
      S.emergency.is_active = true ∧ S.emergency.lane_id = some ((v.laneId : Int) : ℚ)) := by
  rw [derive] at hv
  obtain ⟨id, hid, rfl⟩ := List.mem_map.mp hv
  refine ⟨?_, ?_, ?_, ?_, ?_⟩
  · intro st h
    simp [Option.bind, h]
  · intro h
    simp [Option.bind, h]
  · intro ds h
    simp [Option.bind, h]
  · intro h
    simp [Option.bind, h]
  · simp [Bool.and_eq_true]

/-- C6 witness: the theorem applied to the lane-1 record derived from the
scenario snapshot. -/
theorem derive_fields_per_lane_witness :
    laneOneView ∈ derive (some snap8) lanes ∧
    ((∀ st, snap8.signals.lookup (laneKey laneOneView.laneId) = some st →
        laneOneView.signalState = st) ∧
     (snap8.signals.lookup (laneKey laneOneView.laneId) = none →
        laneOneView.signalState = .RED) ∧
     (∀ ds, snap8.detections.lookup (laneKey laneOneView.laneId) = some ds →
        laneOneView.detections = ds) ∧
     (snap8.detections.lookup (laneKey laneOneView.laneId) = none →
        laneOneView.detections = []) ∧
     (laneOneView.isEmergency = true ↔
        snap8.emergency.is_active = true ∧
        snap8.emergency.lane_id = some ((laneOneView.laneId : Int) : ℚ))) :=
  ⟨by decide, derive_fields_per_lane snap8 lanes laneOneView (by decide)⟩

/-- C7: with no snapshot cached yet, every configured lane derives to the
safe default: RED, not emergency, no detections — one record per lane. -/
theorem derive_null_defaults (L : List Int) :
    (derive none L).length = L.length ∧
    (derive none L).map LaneView.laneId = L ∧
    ∀ v ∈ derive none L, v.signalState = .RED ∧ v.isEmergency = false ∧
      v.detections = [] := by
  refine ⟨by simp [derive], ?_, ?_⟩
  · simp [derive, List.map_map]
    exact List.map_id L
  · intro v hv
    rw [derive] at hv
    obtain ⟨id, hid, rfl⟩ := List.mem_map.mp hv
    exact ⟨rfl, rfl, rfl⟩

/-- C8: the reference scenario frame decodes, reads back as the typed
scenario snapshot, and derives the expected four views: lane 1 GREEN with an
active emergency and one ambulance detection of confidence 0.92, lanes 2-4
RED, quiet and empty. -/
theorem scenario_frame_views :
    decode (some frame8) = some frame8 ∧
    readSocketData frame8 = some snap8 ∧
    derive (some snap8) lanes =
      [{ laneId := 1, signalState := .GREEN, isEmergency := true,
         detections := [{ cls := "ambulance", confidence := conf92 }] },
       { laneId := 2, signalState := .RED, isEmergency := false, detections := [] },
       { laneId := 3, signalState := .RED, isEmergency := false, detections := [] },
       { laneId := 4, signalState := .RED, isEmergency := false, detections := [] }] :=
  ⟨rfl, by decide, by decide⟩

/-- C9 counterexample: the frame whose emergency is active yet names no lane
is decoded, cached by the client, and reads back with `is_active = true` and
`lane_id = null` — the claimed invariant is not enforced anywhere. -/
theorem client_accepts_active_emergency_without_lane :
    decode (some frame9) = some frame9 ∧
    (onMessage 0 (some frame9) initialState).data = some frame9 ∧
    (readSocketData frame9).map (fun d => d.emergency.is_active) = some true ∧
    (readSocketData frame9).map (fun d => d.emergency.lane_id) = some none :=
  ⟨rfl, rfl, by decide, by decide⟩

/-- C9 (amended): the decoder and the client enforce no relationship between
`emergency.is_active` and `emergency.lane_id`: every combination of flag and
lane id is decoded, cached as-is, and read back unchanged. -/
theorem client_enforces_no_emergency_invariant (b : Bool) (l : Option ℚ)
    (s : ClientState) (c : Nat) :
    decode (some (emergencyFrame b l)) = some (emergencyFrame b l) ∧
    (onMessage c (some (emergencyFrame b l)) s).data = some (emergencyFrame b l) ∧
    (readSocketData (emergencyFrame b l)).map (fun d => d.emergency) =
      some { is_active := b, lane_id := l } := by
  refine ⟨rfl, rfl, ?_⟩
  cases l <;> rfl

/-- C10: the `accident` field feeds into nothing — two snapshots differing
only in `accident` (absent, or present with any value) derive identical
per-lane views and an identical emergency banner. -/
theorem accident_no_influence (S : SocketData) (a1 a2 : Option Emergency)
    (L : List Int) :
    derive (some { S with accident := a1 }) L =
      derive (some { S with accident := a2 }) L ∧
    banner (some { S with accident := a1 }) =
      banner (some { S with accident := a2 }) :=
  ⟨rfl, rfl⟩
